import Mathlib

/-!
Verification of the dashboard aggregation logic of `src/pages/DashboardOverview.tsx`
(course-management dashboard).  The data model and every operation below are
shallow embeddings of the TypeScript source: courses, registrations and the
counting/filtering/sorting pipeline that derives the dashboard's view model.
Dates are `YYYY-MM-DD` calendar strings; a parsed date is represented by the
ordinal `year*10000 + month*100 + day`, which orders valid calendar dates
chronologically.
-/

namespace Kurs56

/-- Fields of a course record (`Kurse.fields` in `types/app`): all optional. -/
structure KurseFields where
  titel : Option String := none
  status : Option String := none
  startdatum : Option String := none
  preis : Option ℚ := none
deriving DecidableEq

/-- A course record. -/
structure Kurse where
  record_id : String
  fields : KurseFields
deriving DecidableEq

/-- Fields of a registration record (`Anmeldungen.fields`). -/
structure AnmeldungenFields where
  bezahlt : Option Bool := none
deriving DecidableEq

/-- A registration record. -/
structure Anmeldungen where
  record_id : String
  fields : AnmeldungenFields
deriving DecidableEq

/-- An instructor record; the dashboard only uses its cardinality. -/
structure Dozent where
  record_id : String
deriving DecidableEq

/-- A participant record; the dashboard only uses its cardinality. -/
structure Teilnehmer where
  record_id : String
deriving DecidableEq

/-- A room record; the dashboard only uses its cardinality. -/
structure Raum where
  record_id : String
deriving DecidableEq

/-- Value of a decimal digit character, `none` for a non-digit. -/
def digitVal (c : Char) : Option Nat :=
  if c.isDigit then some (c.toNat - 48) else none

/-- Gregorian leap-year rule. -/
def isLeapYear (y : Nat) : Bool :=
  (y % 4 == 0 && y % 100 != 0) || y % 400 == 0

/-- Number of days in a month of a given year. -/
def daysInMonth (y m : Nat) : Nat :=
  if m == 2 then (if isLeapYear y then 29 else 28)
  else if m == 4 || m == 6 || m == 9 || m == 11 then 30
  else 31

/-- `date-fns` `parseISO` restricted to the calendar-date strings this app
stores (`YYYY-MM-DD`): the parsed date as its ordinal
`year*10000 + month*100 + day`, or `none` when the string is not a valid
calendar date (where `parseISO` yields an Invalid Date). -/
def parseISO (s : String) : Option Nat :=
  match s.toList with
  | [y1, y2, y3, y4, '-', m1, m2, '-', d1, d2] =>
    match digitVal y1, digitVal y2, digitVal y3, digitVal y4,
        digitVal m1, digitVal m2, digitVal d1, digitVal d2 with
    | some a, some b, some c, some d, some e, some f, some g, some h =>
      let y := ((a * 10 + b) * 10 + c) * 10 + d
      let m := e * 10 + f
      let day := g * 10 + h
      if 1 ≤ m && m ≤ 12 && 1 ≤ day && day ≤ daysInMonth y m then
        some (y * 10000 + m * 100 + day)
      else none
    | _, _, _, _, _, _, _, _ => none
  | _ => none

/-- `date-fns` `isAfter d today`: `true` when `d` is strictly after `today`;
`false` when `d` is an Invalid Date (every comparison with it is false). -/
def isAfter (d : Option Nat) (today : Nat) : Bool :=
  match d with
  | none => false
  | some x => today < x

/-- JavaScript truthiness of an optional string (`!x` is true for
`undefined`/`null` and for the empty string). -/
def strTruthy (o : Option String) : Bool :=
  match o with
  | none => false
  | some s => !s.isEmpty

/-- JavaScript truthiness of an optional boolean. -/
def boolTruthy (o : Option Bool) : Bool :=
  o.getD false

/-- `kurse.filter(k => k.fields.status === 'aktiv').length`. -/
def aktiveKurse (kurse : List Kurse) : Nat :=
  (kurse.filter (fun k => k.fields.status == some "aktiv")).length

/-- `kurse.filter(k => k.fields.status === 'geplant').length`. -/
def geplanteKurse (kurse : List Kurse) : Nat :=
  (kurse.filter (fun k => k.fields.status == some "geplant")).length

/-- `kurse.filter(k => k.fields.status === 'abgeschlossen').length`. -/
def abgeschlosseneKurse (kurse : List Kurse) : Nat :=
  (kurse.filter (fun k => k.fields.status == some "abgeschlossen")).length

/-- `kurse.filter(k => k.fields.status === 'abgesagt').length`. -/
def abgesagteKurse (kurse : List Kurse) : Nat :=
  (kurse.filter (fun k => k.fields.status == some "abgesagt")).length

/-- `anmeldungen.filter(a => a.fields.bezahlt === true).length`. -/
def bezahltCount (anmeldungen : List Anmeldungen) : Nat :=
  (anmeldungen.filter (fun a => a.fields.bezahlt == some true)).length

/-- `anmeldungen.filter(a => !a.fields.bezahlt).length`. -/
def offenCount (anmeldungen : List Anmeldungen) : Nat :=
  (anmeldungen.filter (fun a => !boolTruthy a.fields.bezahlt)).length

/-- One bar of the status-distribution chart. -/
structure StatusDatum where
  name : String
  value : Nat
deriving DecidableEq

/-- The `statusData` array: the four status buckets in fixed display order,
then `.filter(d => d.value > 0)`. -/
def statusData (kurse : List Kurse) : List StatusDatum :=
  ([⟨"Geplant", geplanteKurse kurse⟩,
    ⟨"Aktiv", aktiveKurse kurse⟩,
    ⟨"Abgeschlossen", abgeschlosseneKurse kurse⟩,
    ⟨"Abgesagt", abgesagteKurse kurse⟩] : List StatusDatum).filter
    (fun d => decide (0 < d.value))

/-- The filter callback of `upcomingKurse`:
`if (!k.fields.startdatum) return false;`
`return isAfter(parseISO(k.fields.startdatum), today) || k.fields.status === 'geplant'`. -/
def upcomingFilter (today : Nat) (k : Kurse) : Bool :=
  if !strTruthy k.fields.startdatum then false
  else
    isAfter (parseISO (k.fields.startdatum.getD "")) today ||
      k.fields.status == some "geplant"

/-- Sort key of the `upcomingKurse` comparator: `k.fields.startdatum ?? ''`. -/
def sortKey (k : Kurse) : String :=
  k.fields.startdatum.getD ""

/-- The comparator order `(a, b) => (a.startdatum ?? '').localeCompare(b.startdatum ?? '')`
viewed as a total preorder on courses. -/
def kurseLe (a b : Kurse) : Prop :=
  sortKey a ≤ sortKey b

instance : DecidableRel kurseLe :=
  fun a b => inferInstanceAs (Decidable (sortKey a ≤ sortKey b))

instance : IsTotal Kurse kurseLe :=
  ⟨fun a b => le_total (sortKey a) (sortKey b)⟩

instance : IsTrans Kurse kurseLe :=
  ⟨fun _ _ _ h₁ h₂ => le_trans h₁ h₂⟩

/-- The filtered and sorted stage of `upcomingKurse`, before `.slice(0, 5)`.
JavaScript `Array.prototype.sort` is a stable sort; for a total preorder the
stable-sorted permutation is unique, so insertion sort realises it exactly. -/
def upcomingSorted (kurse : List Kurse) (today : Nat) : List Kurse :=
  (kurse.filter (upcomingFilter today)).insertionSort kurseLe

/-- `upcomingKurse`: filter, stable-sort by start date, `.slice(0, 5)`. -/
def upcomingKurse (kurse : List Kurse) (today : Nat) : List Kurse :=
  (upcomingSorted kurse today).take 5

/-- `Math.round` on a non-negative rational: round half up. -/
def jsRound (q : ℚ) : ℤ :=
  Int.floor (q + 1/2)

/-- The Zahlungsquote display value:
`anmeldungen.length > 0 ? Math.round((bezahltCount / anmeldungen.length) * 100) : '—'`,
with the placeholder dash modelled as `none`. -/
def zahlungsquote (anmeldungen : List Anmeldungen) : Option ℤ :=
  if 0 < anmeldungen.length then
    some (jsRound ((bezahltCount anmeldungen : ℚ) / (anmeldungen.length : ℚ) * 100))
  else none

/-- `countByStatus(courses, status)` of the design document: the number of
courses whose status field equals `status` exactly. -/
def countByStatus (kurse : List Kurse) (s : String) : Nat :=
  (kurse.filter (fun k => k.fields.status == some s)).length

/-- A course status recognised by one of the four known buckets. -/
def recognizedStatus (k : Kurse) : Prop :=
  k.fields.status = some "geplant" ∨ k.fields.status = some "aktiv" ∨
    k.fields.status = some "abgeschlossen" ∨ k.fields.status = some "abgesagt"

instance (k : Kurse) : Decidable (recognizedStatus k) := by
  unfold recognizedStatus; infer_instance

/-- The result of one `Promise.all` over the five entity fetches. -/
structure Snapshot where
  dozenten : List Dozent
  teilnehmer : List Teilnehmer
  raeume : List Raum
  kurse : List Kurse
  anmeldungen : List Anmeldungen
deriving DecidableEq

/-- The component's `useState` fields. -/
structure DashState where
  dozentenCount : Nat
  teilnehmerCount : Nat
  raeumeCount : Nat
  kurse : List Kurse
  anmeldungen : List Anmeldungen
  loading : Bool
deriving DecidableEq

/-- The initial state: counts 0, empty collections, `loading = true`. -/
def initialState : DashState :=
  { dozentenCount := 0, teilnehmerCount := 0, raeumeCount := 0,
    kurse := [], anmeldungen := [], loading := true }

/-- A snapshot with all five collections empty. -/
def emptySnapshot : Snapshot :=
  { dozenten := [], teilnehmer := [], raeume := [], kurse := [], anmeldungen := [] }

/-- `loadStats`: on success set the five data fields from the snapshot; on
failure log `Failed to load stats` and change nothing; in both cases the
`finally` block sets `loading` to `false`.  The second component collects the
`console.error` output. -/
def loadStats (s : DashState) (result : Except String Snapshot) :
    DashState × List String :=
  match result with
  | Except.ok snap =>
    ({ dozentenCount := snap.dozenten.length,
       teilnehmerCount := snap.teilnehmer.length,
       raeumeCount := snap.raeume.length,
       kurse := snap.kurse,
       anmeldungen := snap.anmeldungen,
       loading := false }, [])
  | Except.error e =>
    ({ s with loading := false }, ["Failed to load stats: " ++ e])

/-- Spec-side inclusion predicate for the upcoming list, written from the
specification's words for comparison with the code's `upcomingFilter`: a
course is included iff it has a start date strictly after `today`, or its
status is "geplant" regardless of date presence. -/
def specUpcomingIncluded (today : Nat) (k : Kurse) : Prop :=
  (∃ s d, k.fields.startdatum = some s ∧ parseISO s = some d ∧ today < d) ∨
    k.fields.status = some "geplant"

/-- A course with no start date and status "geplant". -/
def undatedPlanned : Kurse :=
  { record_id := "k1", fields := { status := some "geplant" } }

/-- A planned course whose start-date string is not a valid calendar date. -/
def badDateCourse : Kurse :=
  { record_id := "k2",
    fields := { status := some "geplant", startdatum := some "2024-02-30" } }

/-- C2 counterexample: the claim that a failed load puts the model into a
Failed state distinct from Loaded is false — from the initial state, the state
after a failed load is identical to the state after a successful load of an
empty snapshot; the component stores no error flag. -/
theorem loadStats_failure_not_distinct :
    (loadStats initialState (Except.error "network")).1 =
      (loadStats initialState (Except.ok emptySnapshot)).1 := rfl

/-- C2 (amended): if any of the five fetches fails, `loadStats` reports the
failure with exactly one log entry, does not populate any of the five
collections, leaves the previously displayed data untouched, and its only
state change is clearing the loading flag; but no Failed state distinct from
Loaded is recorded. -/
theorem loadStats_error_only_loading (s : DashState) (e : String) :
    loadStats s (Except.error e) =
      ({ s with loading := false }, ["Failed to load stats: " ++ e]) := rfl

/-- C10: on the failure path none of the five data-state fields is modified —
each keeps its previous (hence initial) value, zero or empty — and the only
state change is the loading flag becoming false. -/
theorem loadStats_error_frame (s : DashState) (e : String) :
    (loadStats s (Except.error e)).1.dozentenCount = s.dozentenCount ∧
    (loadStats s (Except.error e)).1.teilnehmerCount = s.teilnehmerCount ∧
    (loadStats s (Except.error e)).1.raeumeCount = s.raeumeCount ∧
    (loadStats s (Except.error e)).1.kurse = s.kurse ∧
    (loadStats s (Except.error e)).1.anmeldungen = s.anmeldungen ∧
    (loadStats s (Except.error e)).1.loading = false ∧
    (loadStats initialState (Except.error e)).1.dozentenCount = 0 ∧
    (loadStats initialState (Except.error e)).1.kurse = [] ∧
    (loadStats initialState (Except.error e)).1.anmeldungen = [] :=
  ⟨rfl, rfl, rfl, rfl, rfl, rfl, rfl, rfl, rfl⟩

/-- C3: for every registration collection, `bezahltCount + offenCount` equals
the number of registrations, and a registration is counted as paid exactly
when its `bezahlt` flag is strictly `true` (absent or `false` count as
unpaid). -/
theorem payment_partition (anmeldungen : List Anmeldungen) :
    bezahltCount anmeldungen + offenCount anmeldungen = anmeldungen.length ∧
    ∀ a : Anmeldungen,
      bezahltCount [a] = if a.fields.bezahlt = some true then 1 else 0 := by
  constructor
  · induction anmeldungen with
    | nil => rfl
    | cons a l ih =>
      unfold bezahltCount offenCount at ih ⊢
      simp only [List.filter_cons, List.length_cons]
      cases hb : a.fields.bezahlt with
      | none =>
        rw [if_neg (by decide), if_pos (by decide)]
        simp only [List.length_cons]
        omega
      | some b =>
        cases b with
        | true =>
          rw [if_pos (by decide), if_neg (by decide)]
          simp only [List.length_cons]
          omega
        | false =>
          rw [if_neg (by decide), if_pos (by decide)]
          simp only [List.length_cons]
          omega
  · intro a
    cases hb : a.fields.bezahlt with
    | none => simp [bezahltCount, hb]
    | some b => cases b <;> simp [bezahltCount, hb]

/-- Witness for C3 at a one-element collection with a paid registration. -/
theorem payment_partition_witness :
    bezahltCount [⟨"w1", ⟨some true⟩⟩] + offenCount [⟨"w1", ⟨some true⟩⟩] = 1 :=
  (payment_partition [⟨"w1", ⟨some true⟩⟩]).1

/-- C9: `countByStatus` counts exactly the courses whose status field equals
the given status under exact comparison (the four dashboard counters are its
instances), and a course with a missing or different (including differently
cased) status never contributes to a bucket. -/
theorem countByStatus_spec (kurse : List Kurse) (s : String) :
    countByStatus kurse s = kurse.countP (fun k => k.fields.status == some s) ∧
    aktiveKurse kurse = countByStatus kurse "aktiv" ∧
    geplanteKurse kurse = countByStatus kurse "geplant" ∧
    abgeschlosseneKurse kurse = countByStatus kurse "abgeschlossen" ∧
    abgesagteKurse kurse = countByStatus kurse "abgesagt" ∧
    (∀ k : Kurse, k.fields.status = none →
      countByStatus (k :: kurse) s = countByStatus kurse s) ∧
    (∀ (k : Kurse) (t : String), k.fields.status = some t → t ≠ s →
      countByStatus (k :: kurse) s = countByStatus kurse s) := by
  refine ⟨(List.countP_eq_length_filter _ _).symm, rfl, rfl, rfl, rfl, ?_, ?_⟩
  · intro k h
    simp [countByStatus, List.filter_cons, h]
  · intro k t h hne
    simp [countByStatus, List.filter_cons, h, hne]

/-- Witness for C9: a course whose status differs only in case ("Aktiv") is
not counted in the "aktiv" bucket. -/
theorem countByStatus_spec_witness :
    countByStatus [⟨"w2", { status := some "Aktiv" }⟩] "aktiv" =
      countByStatus [] "aktiv" :=
  (countByStatus_spec [] "aktiv").2.2.2.2.2.2
    ⟨"w2", { status := some "Aktiv" }⟩ "Aktiv" rfl (by decide)

/-- C5: the status distribution contains no zero-count bucket, its labels are
a subsequence of the fixed display order Geplant, Aktiv, Abgeschlossen,
Abgesagt (never reordered by count), and when all four counts are zero the
output is empty. -/
theorem statusData_spec (kurse : List Kurse) :
    (∀ b ∈ statusData kurse, 0 < b.value) ∧
    List.Sublist ((statusData kurse).map StatusDatum.name)
      ["Geplant", "Aktiv", "Abgeschlossen", "Abgesagt"] ∧
    (geplanteKurse kurse = 0 → aktiveKurse kurse = 0 → abgeschlosseneKurse kurse = 0 →
      abgesagteKurse kurse = 0 → statusData kurse = []) := by
  refine ⟨?_, ?_, ?_⟩
  · intro b hb
    have := List.of_mem_filter hb
    simpa using this
  · have h1 : List.Sublist (statusData kurse)
        ([⟨"Geplant", geplanteKurse kurse⟩,
          ⟨"Aktiv", aktiveKurse kurse⟩,
          ⟨"Abgeschlossen", abgeschlosseneKurse kurse⟩,
          ⟨"Abgesagt", abgesagteKurse kurse⟩] : List StatusDatum) :=
      List.filter_sublist _
    simpa using h1.map StatusDatum.name
  · intro h1 h2 h3 h4
    simp [statusData, h1, h2, h3, h4]

theorem statusData_spec_witness : statusData [] = [] :=
  (statusData_spec []).2.2 rfl rfl rfl rfl

/-- Dropping zero-count buckets does not change the total count. -/
lemma sum_filter_pos_eq (l : List StatusDatum) :
    ((l.filter (fun d => decide (0 < d.value))).map StatusDatum.value).sum =
      (l.map StatusDatum.value).sum := by
  induction l with
  | nil => rfl
  | cons d l ih =>
    by_cases h : 0 < d.value
    · simp [List.filter_cons, h, ih]
    · have h0 : d.value = 0 := by omega
      simp [List.filter_cons, h, ih, h0]

/-- The four status buckets together count exactly the courses with a
recognized status. -/
lemma count_recognized (kurse : List Kurse) :
    geplanteKurse kurse + aktiveKurse kurse + abgeschlosseneKurse kurse +
        abgesagteKurse kurse =
      kurse.countP (fun k => decide (recognizedStatus k)) := by
  induction kurse with
  | nil => rfl
  | cons k l ih =>
    unfold geplanteKurse aktiveKurse abgeschlosseneKurse abgesagteKurse at ih ⊢
    simp only [List.filter_cons, List.countP_cons]
    cases hst : k.fields.status with
    | none =>
      have hrec : (decide (recognizedStatus k)) = false := by
        simp [recognizedStatus, hst]
      rw [hrec, if_neg (by decide), if_neg (by decide), if_neg (by decide),
        if_neg (by decide), if_neg (by decide)]
      omega
    | some s =>
      by_cases h1 : s = "geplant"
      · subst h1
        have hrec : (decide (recognizedStatus k)) = true := by
          simp [recognizedStatus, hst]
        rw [hrec, if_pos (by decide), if_neg (by decide), if_neg (by decide),
          if_neg (by decide), if_pos (by decide)]
        simp only [List.length_cons]
        omega
      · by_cases h2 : s = "aktiv"
        · subst h2
          have hrec : (decide (recognizedStatus k)) = true := by
            simp [recognizedStatus, hst]
          rw [hrec, if_neg (by decide), if_pos (by decide), if_neg (by decide),
            if_neg (by decide), if_pos (by decide)]
          simp only [List.length_cons]
          omega
        · by_cases h3 : s = "abgeschlossen"
          · subst h3
            have hrec : (decide (recognizedStatus k)) = true := by
              simp [recognizedStatus, hst]
            rw [hrec, if_neg (by decide), if_neg (by decide), if_pos (by decide),
              if_neg (by decide), if_pos (by decide)]
            simp only [List.length_cons]
            omega
          · by_cases h4 : s = "abgesagt"
            · subst h4
              have hrec : (decide (recognizedStatus k)) = true := by
                simp [recognizedStatus, hst]
              rw [hrec, if_neg (by decide), if_neg (by decide), if_neg (by decide),
                if_pos (by decide), if_pos (by decide)]
              simp only [List.length_cons]
              omega
            · have hrec : (decide (recognizedStatus k)) = false := by
                simp [recognizedStatus, hst, h1, h2, h3, h4]
              rw [hrec, if_neg (by simp [h1]), if_neg (by simp [h2]),
                if_neg (by simp [h3]), if_neg (by simp [h4]), if_neg (by decide)]
              omega

/-- C6: the counts in the status distribution sum to at most the number of
courses, with equality exactly when every course carries one of the four
recognized statuses. -/
theorem statusData_sum (kurse : List Kurse) :
    ((statusData kurse).map StatusDatum.value).sum ≤ kurse.length ∧
    (((statusData kurse).map StatusDatum.value).sum = kurse.length ↔
      ∀ k ∈ kurse, recognizedStatus k) := by
  have hsum : ((statusData kurse).map StatusDatum.value).sum =
      kurse.countP (fun k => decide (recognizedStatus k)) := by
    unfold statusData
    rw [sum_filter_pos_eq]
    have := count_recognized kurse
    simp only [List.map_cons, List.map_nil, List.sum_cons, List.sum_nil]
    omega
  constructor
  · rw [hsum]
    exact List.countP_le_length _
  · rw [hsum, List.countP_eq_length]
    constructor
    · intro h k hk
      simpa using h k hk
    · intro h k hk
      simpa using h k hk

theorem statusData_sum_witness :
    ((statusData [undatedPlanned]).map StatusDatum.value).sum = 1 := by
  have h := (statusData_sum [undatedPlanned]).2.mpr
  rw [h]
  · rfl
  · intro k hk
    simp only [List.mem_singleton] at hk
    subst hk
    exact Or.inl rfl

/-- C4: for an empty registration collection the payment rate is undefined
(`none`, never 0 or an error); for a non-empty collection it is a value `r`
in [0, 100] that rounds `paidCount / total * 100` to the nearest whole
percent half-up, i.e. `r - 1/2 <= paidCount/total*100 < r + 1/2`. -/
theorem zahlungsquote_spec (anmeldungen : List Anmeldungen) :
    (anmeldungen.length = 0 → zahlungsquote anmeldungen = none) ∧
    (0 < anmeldungen.length →
      ∃ r : ℤ, zahlungsquote anmeldungen = some r ∧ 0 ≤ r ∧ r ≤ 100 ∧
        (r : ℚ) - 1/2 ≤ (bezahltCount anmeldungen : ℚ) / (anmeldungen.length : ℚ) * 100 ∧
        (bezahltCount anmeldungen : ℚ) / (anmeldungen.length : ℚ) * 100 < (r : ℚ) + 1/2) := by
  constructor
  · intro h
    simp [zahlungsquote, h]
  · intro h
    have hple : bezahltCount anmeldungen ≤ anmeldungen.length :=
      List.length_filter_le _ _
    have hlen : (0 : ℚ) < (anmeldungen.length : ℚ) := by exact_mod_cast h
    have hx0 : (0 : ℚ) ≤ (bezahltCount anmeldungen : ℚ) / (anmeldungen.length : ℚ) * 100 := by
      positivity
    have hx100 : (bezahltCount anmeldungen : ℚ) / (anmeldungen.length : ℚ) * 100 ≤ 100 := by
      rw [div_mul_eq_mul_div, div_le_iff₀ hlen]
      have hc : (bezahltCount anmeldungen : ℚ) ≤ (anmeldungen.length : ℚ) := by
        exact_mod_cast hple
      nlinarith
    refine ⟨jsRound ((bezahltCount anmeldungen : ℚ) / (anmeldungen.length : ℚ) * 100),
      ?_, ?_, ?_, ?_, ?_⟩
    · simp [zahlungsquote, h]
    · unfold jsRound
      rw [Int.le_floor]
      push_cast
      linarith
    · unfold jsRound
      have hfl : Int.floor ((bezahltCount anmeldungen : ℚ) / (anmeldungen.length : ℚ) * 100
          + 1/2) < 101 := by
        rw [Int.floor_lt]
        push_cast
        linarith
      omega
    · have hfl := Int.floor_le ((bezahltCount anmeldungen : ℚ) /
        (anmeldungen.length : ℚ) * 100 + 1/2)
      unfold jsRound
      linarith
    · have hfl := Int.lt_floor_add_one ((bezahltCount anmeldungen : ℚ) /
        (anmeldungen.length : ℚ) * 100 + 1/2)
      unfold jsRound
      linarith

theorem zahlungsquote_spec_witness :
    ∃ r : ℤ,
      zahlungsquote [⟨"a", ⟨some true⟩⟩, ⟨"b", ⟨some true⟩⟩,
          ⟨"c", ⟨some false⟩⟩, ⟨"d", ⟨none⟩⟩] = some r ∧ 0 ≤ r ∧ r ≤ 100 ∧
        (r : ℚ) - 1/2 ≤ (bezahltCount [⟨"a", ⟨some true⟩⟩, ⟨"b", ⟨some true⟩⟩,
          ⟨"c", ⟨some false⟩⟩, ⟨"d", ⟨none⟩⟩] : ℚ) /
            (([⟨"a", ⟨some true⟩⟩, ⟨"b", ⟨some true⟩⟩, ⟨"c", ⟨some false⟩⟩,
              ⟨"d", ⟨none⟩⟩] : List Anmeldungen).length : ℚ) * 100 ∧
        (bezahltCount [⟨"a", ⟨some true⟩⟩, ⟨"b", ⟨some true⟩⟩,
          ⟨"c", ⟨some false⟩⟩, ⟨"d", ⟨none⟩⟩] : ℚ) /
            (([⟨"a", ⟨some true⟩⟩, ⟨"b", ⟨some true⟩⟩, ⟨"c", ⟨some false⟩⟩,
              ⟨"d", ⟨none⟩⟩] : List Anmeldungen).length : ℚ) * 100 < (r : ℚ) + 1/2 :=
  (zahlungsquote_spec [⟨"a", ⟨some true⟩⟩, ⟨"b", ⟨some true⟩⟩,
    ⟨"c", ⟨some false⟩⟩, ⟨"d", ⟨none⟩⟩]).2 (by decide)

/-- `isAfter` holds exactly for a parsed date strictly later than `t`. -/
lemma isAfter_eq_true_iff (d : Option Nat) (t : Nat) :
    isAfter d t = true ↔ ∃ x, d = some x ∧ t < x := by
  cases d with
  | none => simp [isAfter]
  | some x => simp [isAfter]

/-- `strTruthy` on a present string means the string is non-empty. -/
lemma strTruthy_some_iff (s : String) : strTruthy (some s) = true ↔ s ≠ "" := by
  simp only [strTruthy, Bool.not_eq_true']
  rw [Bool.eq_false_iff]
  constructor
  · intro h hc
    exact h ((String.isEmpty_iff s).mpr hc)
  · intro h hc
    exact h ((String.isEmpty_iff s).mp hc)

/-- The branch structure of `upcomingFilter` as a single Boolean equation. -/
lemma upcomingFilter_eq (today : Nat) (k : Kurse) :
    upcomingFilter today k =
      (strTruthy k.fields.startdatum &&
        (isAfter (parseISO (k.fields.startdatum.getD "")) today ||
          k.fields.status == some "geplant")) := by
  rw [upcomingFilter]
  cases h : strTruthy k.fields.startdatum with
  | false => simp
  | true => simp

/-- C1 counterexample: a course with no start date and status "geplant"
satisfies the claimed inclusion predicate, yet the code's upcoming selection
excludes it — refuting the claim that a planned course is included regardless
of date presence. -/
theorem upcoming_excludes_undated_planned :
    specUpcomingIncluded 20240601 undatedPlanned ∧
      upcomingKurse [undatedPlanned] 20240601 = [] :=
  ⟨Or.inr rfl, rfl⟩

/-- C1 (amended): a course passes the upcoming filter iff it has a non-empty
start-date string and either that string parses to a date strictly after
`asOf` or the course's status equals "geplant"; a course with no start date
is excluded even when planned. -/
theorem upcomingFilter_iff (today : Nat) (k : Kurse) :
    upcomingFilter today k = true ↔
      ∃ s, k.fields.startdatum = some s ∧ s ≠ "" ∧
        ((∃ d, parseISO s = some d ∧ today < d) ∨
          k.fields.status = some "geplant") := by
  rw [upcomingFilter_eq]
  cases hs : k.fields.startdatum with
  | none => simp [strTruthy]
  | some s =>
    simp only [Bool.and_eq_true, Bool.or_eq_true, strTruthy_some_iff,
      Option.getD_some, isAfter_eq_true_iff, beq_iff_eq, Option.some.injEq]
    constructor
    · rintro ⟨hne, hcond⟩
      exact ⟨s, rfl, hne, hcond⟩
    · rintro ⟨s', hs', hne', hcond⟩
      subst hs'
      exact ⟨hne', hcond⟩

theorem upcomingFilter_iff_witness :
    upcomingFilter 20240601
      ⟨"k3", { status := some "aktiv", startdatum := some "2024-07-01" }⟩ = true :=
  (upcomingFilter_iff 20240601
    ⟨"k3", { status := some "aktiv", startdatum := some "2024-07-01" }⟩).mpr
    ⟨"2024-07-01", rfl, by decide, Or.inl ⟨20240701, by decide, by decide⟩⟩

/-- C8: a course whose start-date string is present but does not parse as a
valid date is excluded from the date comparison rather than failing — its
inclusion in the upcoming list reduces to the status check alone; the
aggregation is total on every input. -/
theorem malformed_date_excluded (today : Nat) (k : Kurse) (s : String)
    (hs : k.fields.startdatum = some s) (hp : parseISO s = none) (hne : s ≠ "") :
    upcomingFilter today k = (k.fields.status == some "geplant") := by
  have ht : strTruthy (some s) = true := (strTruthy_some_iff s).mpr hne
  rw [upcomingFilter_eq, hs]
  simp only [Option.getD_some, hp, ht]
  simp [isAfter]

theorem malformed_date_excluded_witness :
    upcomingFilter 0 badDateCourse =
      (badDateCourse.fields.status == some "geplant") :=
  malformed_date_excluded 0 badDateCourse "2024-02-30" rfl (by decide) (by decide)

/-- Ordered insertion is stable: it never moves an element past one with the
same sort key, so the equal-key subsequence is preserved up to the inserted
element being placed after strictly smaller keys. -/
lemma filter_key_orderedInsert (d : String) (x : Kurse) (l : List Kurse) :
    (l.orderedInsert kurseLe x).filter (fun k => sortKey k == d) =
      if sortKey x == d then x :: l.filter (fun k => sortKey k == d)
      else l.filter (fun k => sortKey k == d) := by
  induction l with
  | nil =>
    simp only [List.orderedInsert, List.filter_cons, List.filter_nil]
  | cons b l ih =>
    rw [List.orderedInsert]
    by_cases hle : kurseLe x b
    · rw [if_pos hle]
      by_cases hx : (sortKey x == d) = true
      · simp [List.filter_cons, hx]
      · simp [List.filter_cons, hx]
    · rw [if_neg hle]
      have hlt : sortKey b < sortKey x := not_le.mp hle
      by_cases hx : (sortKey x == d) = true
      · have hxd : sortKey x = d := beq_iff_eq.mp hx
        have hb : (sortKey b == d) = false := by
          rw [beq_eq_false_iff_ne]
          intro hbd
          have : sortKey b = sortKey x := hbd.trans hxd.symm
          exact absurd hlt (this ▸ lt_irrefl _)
        rw [if_pos hx]
        simp only [List.filter_cons, hb, ih, hx]
        simp
      · rw [if_neg hx]
        simp only [List.filter_cons, ih, hx]
        simp

/-- Insertion sort preserves each equal-key subsequence: stability. -/
lemma filter_key_insertionSort (d : String) (l : List Kurse) :
    (l.insertionSort kurseLe).filter (fun k => sortKey k == d) =
      l.filter (fun k => sortKey k == d) := by
  induction l with
  | nil => rfl
  | cons a l ih =>
    rw [List.insertionSort, filter_key_orderedInsert]
    by_cases hx : (sortKey a == d) = true
    · rw [if_pos hx]
      simp only [List.filter_cons, hx, ih]
      simp
    · rw [if_neg hx]
      simp only [List.filter_cons, hx, ih]
      simp

/-- C7: the upcoming list holds at most 5 entries (at most `n` after taking
`n`), is sorted non-decreasing by start date compared as calendar strings, a
missing start date sorts as the empty string which is the least key, and the
sort is stable: each equal-key subsequence of the sorted stage equals the
corresponding subsequence of the filtered input. -/
theorem upcoming_sorted_spec (kurse : List Kurse) (today : Nat) :
    (upcomingKurse kurse today).length ≤ 5 ∧
    List.Sorted kurseLe (upcomingKurse kurse today) ∧
    (∀ n : Nat, ((upcomingSorted kurse today).take n).length ≤ n) ∧
    (∀ k : Kurse, k.fields.startdatum = none → sortKey k = "") ∧
    (∀ k : Kurse, ("" : String) ≤ sortKey k) ∧
    (∀ d : String, (upcomingSorted kurse today).filter (fun k => sortKey k == d) =
      (kurse.filter (upcomingFilter today)).filter (fun k => sortKey k == d)) := by
  refine ⟨?_, ?_, ?_, ?_, ?_, ?_⟩
  · exact List.length_take_le _ _
  · exact List.Pairwise.sublist (List.take_sublist _ _)
      (List.sorted_insertionSort kurseLe _)
  · intro n
    exact List.length_take_le _ _
  · intro k h
    simp [sortKey, h]
  · intro k
    rw [String.le_iff_toList_le]
    exact List.nil_le
  · intro d
    exact filter_key_insertionSort d _

theorem upcoming_sorted_spec_witness : sortKey undatedPlanned = "" :=
  (upcoming_sorted_spec [] 0).2.2.2.1 undatedPlanned rfl

end Kurs56
